import Mathlib

/-
  Verification development for `src/v4l2-utils.c` (V4L2 buffer-pool and
  streaming helper module).

  Embedding conventions:
  * Every external call (ioctl, mmap, open, fstat) is modelled by an oracle
    parameter holding the reply the kernel would produce: `none` / `false`
    stands for a failing call (`rc != 0`, `MAP_FAILED`, negative fd), `some r`
    for a successful call whose out-parameters are `r`.
  * Every `error(EXIT_FAILURE, ...)` call site in the C module terminates the
    process; each distinct call site is modelled as a distinct constructor of
    `V4l2Error`, and a function that can terminate is embedded as a function
    into `Except V4l2Error _`.  `Except.error e` therefore means "the process
    exits through the check corresponding to `e`"; no value is produced and no
    further statement of the function runs.
  * Machine integers (`uint32_t`, buffer counts, indices) are modelled as `Nat`;
    none of the embedded code paths can overflow them on the inputs we quantify
    over, and no arithmetic in the module wraps.
-/

set_option maxHeartbeats 1000000

/-- The distinct fatal-exit and failure classes of the module, one constructor
per `error(EXIT_FAILURE, ...)` (or failure-return) site, named after the
spec's error taxonomy where the spec names the site. -/
inductive V4l2Error where
  /-- `open()` failed ("Can not open"). -/
  | OpenFailed
  /-- `fstat()` failed ("Can not stat()"). -/
  | StatFailed
  /-- The node is not a character device. -/
  | NotCharDevice
  /-- `VIDIOC_QUERYCAP` failed ("Can not query device capabilities"). -/
  | QueryCapFailed
  /-- A required capability bit is missing. -/
  | MissingCapability
  /-- A forbidden capability bit is present. -/
  | ForbiddenCapability
  /-- `VIDIOC_S_FMT` failed ("Can not set format"). -/
  | SetFormatFailed
  /-- Driver-confirmed width/height differ from the request ("Can not set requested size"). -/
  | SizeMismatch
  /-- Driver-confirmed pixelformat differs from the request ("Can not set requested pixel format"). -/
  | FormatMismatch
  /-- `VIDIOC_G_PARM` failed in `v4l2_framerate_configure` ("Can not get device streaming parameters"). -/
  | GetParmFailed
  /-- `VIDIOC_S_PARM` failed ("Can not set device streaming parameters"). -/
  | SetParmFailed
  /-- The driver did not keep the requested framerate ("failed to set requested framerate"). -/
  | FramerateVerifyFailed
  /-- `VIDIOC_REQBUFS` failed ("Can not request buffers"). -/
  | RequestFailed
  /-- The driver granted zero buffers ("Device gives zero buffers"). -/
  | UnsupportedCapability
  /-- The driver granted a count different from the request ("Device gives N buffers, but M is requested"). -/
  | CountMismatch
  /-- `VIDIOC_QUERYBUF` failed ("Can not query buffer"). -/
  | QueryBufFailed
  /-- `mmap` returned `MAP_FAILED` ("Can not mmap buffer"). -/
  | MapFailed
  /-- `VIDIOC_EXPBUF` failed ("Can not export buffer"). -/
  | ExportFailed
  /-- `VIDIOC_DQBUF` failed ("Can not dequeue buffer"). -/
  | DequeueFailed
  /-- `VIDIOC_QBUF` failed ("Can not enqueue buffer"). -/
  | DriverRejected
  /-- `VIDIOC_STREAMON` failed ("Failed to start stream"). -/
  | StreamStartFailed
  /-- Queue attempted on an index whose recorded state is already `QueuedToDriver`. -/
  | InvalidState
  /-- Dequeue reported an index that is not currently `QueuedToDriver` (spec: fatal integrity error). -/
  | ProtocolViolation
  deriving Repr, DecidableEq

/-- `v4l2_buffers_request`: issue `VIDIOC_REQBUFS` asking for `num` buffers.
`reqbufs` is the ioctl oracle: `none` when the ioctl fails, `some granted`
when it succeeds having written `granted` into `reqbuf.count`.  The C code
exits on ioctl failure, on a zero grant, and on a grant different from `num`;
otherwise it returns the granted count. -/
def v4l2_buffers_request (num : Nat) (reqbufs : Option Nat) : Except V4l2Error Nat :=
  match reqbufs with
  | none => .error .RequestFailed
  | some granted =>
    if granted = 0 then .error .UnsupportedCapability
    else if granted ≠ num then .error .CountMismatch
    else .ok granted

/-- Events on the pool's mapped-memory resources, to state unwinding claims:
the C loop only ever performs `mmap` (recorded as `mapped`); there is no
`munmap` call in `v4l2_buffers_mmap`, so an `unmapped` event is never
emitted by the embedding. -/
inductive MmapEvent where
  | mapped (index length offset : Nat)
  | unmapped (index : Nat)
  deriving Repr, DecidableEq

/-- Loop body of `v4l2_buffers_mmap`: `query` is the `VIDIOC_QUERYBUF` oracle
giving `(length, offset)` per index, `mok` the success oracle of the `mmap`
system call.  A real `mmap` call with `length = 0` always fails with `EINVAL`
(POSIX), so the embedding treats a zero queried length as a mapping failure
regardless of `mok`.  Returns the collected `(index, length, offset)`
descriptors together with the resource-event trace. -/
def mmapGo (query : Nat → Option (Nat × Nat)) (mok : Nat → Bool) :
    Nat → Nat → List (Nat × Nat × Nat) → List MmapEvent →
    Except V4l2Error (List (Nat × Nat × Nat)) × List MmapEvent
  | _, 0, acc, ev => (.ok acc, ev)
  | i, n + 1, acc, ev =>
    match query i with
    | none => (.error .QueryBufFailed, ev)
    | some (len, off) =>
      if len ≠ 0 ∧ mok i = true then
        mmapGo query mok (i + 1) n (acc ++ [(i, len, off)]) (ev ++ [.mapped i len off])
      else (.error .MapFailed, ev)

/-- `v4l2_buffers_mmap`: for each index `0 ≤ i < num`, query the buffer and map
it; any failure exits the process (no cleanup code runs first). -/
def v4l2_buffers_mmap (query : Nat → Option (Nat × Nat)) (mok : Nat → Bool) (num : Nat) :
    Except V4l2Error (List (Nat × Nat × Nat)) × List MmapEvent :=
  mmapGo query mok 0 num [] []

/-- Loop body of `v4l2_buffers_export`: `ex` is the `VIDIOC_EXPBUF` oracle
giving the exported file descriptor per index. -/
def exportGo (ex : Nat → Option Nat) :
    Nat → Nat → List (Nat × Nat) → Except V4l2Error (List (Nat × Nat))
  | _, 0, acc => .ok acc
  | i, n + 1, acc =>
    match ex i with
    | none => .error .ExportFailed
    | some fd => exportGo ex (i + 1) n (acc ++ [(i, fd)])

/-- `v4l2_buffers_export`: for each index `0 ≤ i < num`, export the buffer as a
file descriptor; an ioctl failure exits the process. -/
def v4l2_buffers_export (ex : Nat → Option Nat) (num : Nat) :
    Except V4l2Error (List (Nat × Nat)) :=
  exportGo ex 0 num []

/-- The `v4l2_field_names` table.  C declares it with designated initializers
`[V4L2_FIELD_ANY] = "any", ...`; the `V4L2_FIELD_*` enumerators are the
contiguous values 0..9, so every slot holds a string.  A slot that C would
leave as a NULL pointer is modelled as `none`. -/
def v4l2_field_names : List (Option String) :=
  [some "any", some "none", some "top", some "bottom", some "interlaced",
   some "seq-tb", some "seq-bt", some "alternate", some "interlaced-tb",
   some "interlaced-bt"]

/-- The `v4l2_type_names` table.  The `V4L2_BUF_TYPE_*` enumerators start at 1
(`V4L2_BUF_TYPE_VIDEO_CAPTURE = 1`, ..., `V4L2_BUF_TYPE_SDR_CAPTURE = 11`), so
the C array has 12 slots and slot 0 is an uninitialized NULL pointer
(modelled as `none`). -/
def v4l2_type_names : List (Option String) :=
  [none, some "vid-cap", some "vid-out", some "vid-overlay", some "vbi-cap",
   some "vbi-out", some "sliced-vbi-cap", some "sliced-vbi-out",
   some "vid-out-overlay", some "vid-cap-mplane", some "vid-out-mplane",
   some "sdr-cap"]

/-- The `v4l2_memory_names` table.  `V4L2_MEMORY_MMAP = 1`, ...,
`V4L2_MEMORY_DMABUF = 4`: five slots, slot 0 an uninitialized NULL pointer. -/
def v4l2_memory_names : List (Option String) :=
  [none, some "mmap", some "userptr", some "overlay", some "dmabuf"]

/-- The `v4l2_name(a, arr)` macro: `((unsigned)(a)) < ARRAY_SIZE(arr) ? arr[a]
: "unknown"`.  The argument is taken after the cast to `unsigned`, hence a
`Nat`.  An in-range slot is returned as stored (possibly NULL = `none`); an
out-of-range value yields the literal `"unknown"`. -/
def v4l2_name (a : Nat) (arr : List (Option String)) : Option String :=
  if h : a < arr.length then arr.get ⟨a, h⟩ else some "unknown"

/-- `v4l2_field_name`. -/
def v4l2_field_name (field : Nat) : Option String :=
  v4l2_name field v4l2_field_names

/-- `v4l2_type_name`. -/
def v4l2_type_name (type : Nat) : Option String :=
  v4l2_name type v4l2_type_names

/-- `v4l2_memory_name`. -/
def v4l2_memory_name (memory : Nat) : Option String :=
  v4l2_name memory v4l2_memory_names

/-- `enum v4l2_buf_type` value used by the module. -/
def V4L2_BUF_TYPE_VIDEO_CAPTURE : Nat := 1

/-- `enum v4l2_buf_type` value used by the module. -/
def V4L2_BUF_TYPE_VIDEO_OUTPUT : Nat := 2

/-- `V4L2_CAP_TIMEPERFRAME` capability flag (0x1000). -/
def V4L2_CAP_TIMEPERFRAME : Nat := 4096

/-- The fields of `struct v4l2_pix_format` that `v4l2_configure` reads back
from the driver after `VIDIOC_S_FMT`. -/
structure PixFormat where
  width : Nat
  height : Nat
  pixelformat : Nat
  field : Nat
  sizeimage : Nat
  deriving Repr, DecidableEq

/-- `v4l2_configure`: issue `VIDIOC_S_FMT` with the requested
width/height/pixelformat (`field = V4L2_FIELD_ANY`); `sfmt` is the ioctl
oracle holding the driver-confirmed format written back into `fmt`.  The C
code exits if the ioctl fails, if the confirmed width or height differ from
the request, or if the confirmed pixelformat differs; otherwise it returns
(the C function is `void`; the embedding exposes the confirmed format so the
success-state can be stated). -/
def v4l2_configure (pixelformat width height : Nat) (sfmt : Option PixFormat) :
    Except V4l2Error PixFormat :=
  match sfmt with
  | none => .error .SetFormatFailed
  | some r =>
    if r.width ≠ width ∨ r.height ≠ height then .error .SizeMismatch
    else if r.pixelformat ≠ pixelformat then .error .FormatMismatch
    else .ok r

/-- The storage of `struct v4l2_streamparm`'s anonymous union.  In C,
`parm.capture` (`struct v4l2_captureparm`) and `parm.output`
(`struct v4l2_outputparm`) are union members laid out with `capability` at
offset 0 and `timeperframe` at offset 8 in both, so the fields read through
either member alias the same storage; the embedding therefore models the
union by a single record. -/
structure Streamparm where
  capability : Nat
  tpfNumerator : Nat
  tpfDenominator : Nat
  deriving Repr, DecidableEq

/-- `v4l2_framerate_configure`: `gparm` is the `VIDIOC_G_PARM` oracle, `sparm`
the `VIDIOC_S_PARM` oracle (given the parm struct passed in, it returns the
struct written back on success, or `none` on failure).  For the capture
(resp. output) buffer type, a missing `V4L2_CAP_TIMEPERFRAME` capability
makes the function warn and return without error; otherwise the
time-per-frame is set to `1 / framerate` and, after `VIDIOC_S_PARM`, the
written-back denominator is checked against the request.  For any other
buffer type the parm struct is passed through unchanged and the verification
condition is vacuously false. -/
def v4l2_framerate_configure (type framerate : Nat) (gparm : Option Streamparm)
    (sparm : Streamparm → Option Streamparm) : Except V4l2Error Unit :=
  match gparm with
  | none => .error .GetParmFailed
  | some p =>
    if type = V4L2_BUF_TYPE_VIDEO_CAPTURE then
      if Nat.land p.capability V4L2_CAP_TIMEPERFRAME = 0 then .ok ()
      else
        match sparm { p with tpfNumerator := 1, tpfDenominator := framerate } with
        | none => .error .SetParmFailed
        | some q =>
          if q.tpfDenominator ≠ framerate then .error .FramerateVerifyFailed
          else .ok ()
    else if type = V4L2_BUF_TYPE_VIDEO_OUTPUT then
      if Nat.land p.capability V4L2_CAP_TIMEPERFRAME = 0 then .ok ()
      else
        match sparm { p with tpfNumerator := 1, tpfDenominator := framerate } with
        | none => .error .SetParmFailed
        | some q =>
          if q.tpfDenominator ≠ framerate then .error .FramerateVerifyFailed
          else .ok ()
    else
      match sparm p with
      | none => .error .SetParmFailed
      | some _ => .ok ()

/-- `v4l2_framerate_get`: issue `VIDIOC_G_PARM`; on failure print a warning
and return `NAN` (modelled as `none`) — the process does NOT exit.  On
success return `timeperframe.denominator / timeperframe.numerator` read
through the `capture` union member whatever `type` was passed (the C float
division is modelled as exact rational division). -/
def v4l2_framerate_get (_type : Nat) (gparm : Option Streamparm) : Option ℚ :=
  match gparm with
  | none => none
  | some p => some ((p.tpfDenominator : ℚ) / (p.tpfNumerator : ℚ))

/-- The fields of `struct v4l2_buffer` that the dequeue/queue path carries:
the index plus the driver-produced metadata (bytes used, flags, timestamp,
sequence number). -/
structure V4l2Buffer where
  index : Nat
  bytesused : Nat
  flags : Nat
  timestampSec : Nat
  timestampUsec : Nat
  sequence : Nat
  deriving Repr, DecidableEq

/-- `v4l2_dqbuf`: issue `VIDIOC_DQBUF`; the oracle `reply` is the buffer the
driver filled in on success, `none` on failure.  The C code exits on failure
("Can not dequeue buffer"); it makes exactly one ioctl attempt and never
retries. -/
def v4l2_dqbuf (reply : Option V4l2Buffer) : Except V4l2Error V4l2Buffer :=
  match reply with
  | none => .error .DequeueFailed
  | some b => .ok b

/-- `v4l2_qbuf`: print the buffer, then issue `VIDIOC_QBUF`; the C code exits
on failure ("Can not enqueue buffer"). -/
def v4l2_qbuf (ioctlOk : Bool) (buf : V4l2Buffer) : Except V4l2Error V4l2Buffer :=
  if ioctlOk then .ok buf else .error .DriverRejected

/-- `v4l2_streamon`: issue `VIDIOC_STREAMON`; the C code exits on failure
("Failed to start stream"). -/
def v4l2_streamon (ioctlOk : Bool) : Except V4l2Error Unit :=
  if ioctlOk then .ok () else .error .StreamStartFailed

/-- `v4l2_open`: open the node, `fstat` it, require a character device, query
capabilities, require all `positive` bits present and all `negative` bits
absent.  Oracles: `openOk` for `open`, `statOk` for `fstat`, `isChr` for
`S_ISCHR`, `querycap` for `VIDIOC_QUERYCAP` (the capabilities word on
success).  Every failure exits the process. -/
def v4l2_open (openOk statOk isChr : Bool) (querycap : Option Nat)
    (positive negative : Nat) : Except V4l2Error Unit :=
  if ¬openOk then .error .OpenFailed
  else if ¬statOk then .error .StatFailed
  else if ¬isChr then .error .NotCharDevice
  else
    match querycap with
    | none => .error .QueryCapFailed
    | some caps =>
      if Nat.land caps positive ≠ positive then .error .MissingCapability
      else if Nat.land caps negative ≠ 0 then .error .ForbiddenCapability
      else .ok ()

/-- Modelled from the spec: the per-index `BufferState` of §3 — the recorded
ownership tag of one pool slot.  The state machine itself (the BufferRing of
§4.2) is not implemented in `src/v4l2-utils.c`; the module only issues the
`VIDIOC_QBUF`/`VIDIOC_DQBUF` calls that drive it, and the recorded state
lives with the caller/driver.  `Free` is the initial state after pool
creation. -/
inductive BufferState where
  | Free
  | QueuedToDriver
  | DequeuedByApp
  deriving Repr, DecidableEq

/-- Modelled from the spec: `queue(index, metadata)` of §4.2 on the recorded
states (one entry per pool index).  Requires the current state to be `Free`
or `DequeuedByApp` and transitions the index to `QueuedToDriver`; called on
an index already `QueuedToDriver` it fails with `InvalidState` and the
recorded states are returned unchanged.  Returns the outcome together with
the recorded states after the call. -/
def ringQueue (states : List BufferState) (i : Nat) :
    Except V4l2Error Unit × List BufferState :=
  match states[i]? with
  | some .QueuedToDriver => (.error .InvalidState, states)
  | some .Free => (.ok (), states.set i .QueuedToDriver)
  | some .DequeuedByApp => (.ok (), states.set i .QueuedToDriver)
  | none => (.error .InvalidState, states)

/-- Modelled from the spec: `dequeue()` of §4.2 over the recorded states.
`reply` is the underlying wait/read outcome (`v4l2_dqbuf`'s oracle): `none`
is a wait/read error, surfaced as `DequeueFailed`; `some b` is a completed
buffer reported by the driver.  A reported index whose recorded state is not
`QueuedToDriver` (including an out-of-range index) is the spec's fatal
integrity error.  On success the index transitions to `DequeuedByApp` and the
index plus driver-produced metadata is returned. -/
def ringDequeue (states : List BufferState) (reply : Option V4l2Buffer) :
    Except V4l2Error (V4l2Buffer × List BufferState) :=
  match reply with
  | none => .error .DequeueFailed
  | some b =>
    match states[b.index]? with
    | some .QueuedToDriver => .ok (b, states.set b.index .DequeuedByApp)
    | _ => .error .ProtocolViolation

/-- Modelled from the spec: the stream state of §4.3, `Stopped → Running →
Stopped`, with no other state in the type (so no intermediate state can
exist).  The state itself is not recorded in `src/v4l2-utils.c`; the module
only issues `VIDIOC_STREAMON`. -/
inductive StreamState where
  | Stopped
  | Running
  deriving Repr, DecidableEq

/-- Modelled from the spec: `start(deviceHandle, bufferType)` of §4.3 driving
the stream state, layered over `v4l2_streamon`: on driver acceptance the
state moves from the current state to `Running`; on rejection the call fails
with `StreamStartFailed` and the state is returned unchanged. -/
def streamStart (ioctlOk : Bool) (s : StreamState) :
    Except V4l2Error Unit × StreamState :=
  match v4l2_streamon ioctlOk with
  | .ok _ => (.ok (), .Running)
  | .error e => (.error e, s)


/-! ### Helper lemmas -/

/-- Out-of-range lookups through the `v4l2_name` macro yield `"unknown"`. -/
theorem v4l2_name_of_le {a : Nat} {arr : List (Option String)}
    (h : arr.length ≤ a) : v4l2_name a arr = some "unknown" := by
  unfold v4l2_name
  rw [dif_neg (Nat.not_lt.mpr h)]

/-- Inversion of a successful `mmapGo` run: the collected descriptors extend
the accumulator by one entry per remaining index, each recording the queried
length and offset, with a nonzero length and a successful `mmap`. -/
theorem mmapGo_ok_inv (query : Nat → Option (Nat × Nat)) (mok : Nat → Bool) :
    ∀ (n i : Nat) (acc : List (Nat × Nat × Nat)) (ev : List MmapEvent)
      (bufs : List (Nat × Nat × Nat)) (ev2 : List MmapEvent),
      mmapGo query mok i n acc ev = (.ok bufs, ev2) →
      ∃ tail, bufs = acc ++ tail ∧ tail.length = n ∧
        ∀ k < n, ∃ len off, query (i + k) = some (len, off) ∧ len ≠ 0 ∧
          mok (i + k) = true ∧ tail[k]? = some (i + k, len, off) := by
  intro n
  induction n with
  | zero =>
    intro i acc ev bufs ev2 hEq
    simp only [mmapGo, Prod.mk.injEq] at hEq
    obtain ⟨hb, _⟩ := hEq
    injection hb with hb
    exact ⟨[], by simp [hb], rfl, by omega⟩
  | succ n ih =>
    intro i acc ev bufs ev2 hEq
    rw [mmapGo] at hEq
    cases hq : query i with
    | none =>
      simp only [hq] at hEq
      exact absurd (congrArg Prod.fst hEq) (fun hcc => Except.noConfusion hcc)
    | some p =>
      obtain ⟨len, off⟩ := p
      simp only [hq] at hEq
      by_cases hc : len ≠ 0 ∧ mok i = true
      · rw [if_pos hc] at hEq
        obtain ⟨tail2, hb, hl, hk⟩ :=
          ih (i + 1) (acc ++ [(i, len, off)]) (ev ++ [.mapped i len off]) bufs ev2 hEq
        refine ⟨(i, len, off) :: tail2, by simp [hb], by simp [hl], ?_⟩
        intro k hkn
        cases k with
        | zero =>
          exact ⟨len, off, by simpa using hq, hc.1, hc.2, by simp⟩
        | succ m =>
          obtain ⟨l2, o2, hq2, hl2, hm2, he2⟩ := hk m (by omega)
          have hidx : i + (m + 1) = (i + 1) + m := by omega
          exact ⟨l2, o2, by rw [hidx]; exact hq2, hl2, by rw [hidx]; exact hm2,
            by rw [hidx]; simpa using he2⟩
      · rw [if_neg hc] at hEq
        exact absurd (congrArg Prod.fst hEq) (fun hcc => Except.noConfusion hcc)

/-- Every event that `mmapGo` appends to the trace is a `mapped` event: the
C loop contains no `munmap` call. -/
theorem mmapGo_events_mapped (query : Nat → Option (Nat × Nat)) (mok : Nat → Bool) :
    ∀ (n i : Nat) (acc : List (Nat × Nat × Nat)) (ev : List MmapEvent),
      ∀ e ∈ (mmapGo query mok i n acc ev).2,
        e ∈ ev ∨ ∃ a b c, e = MmapEvent.mapped a b c := by
  intro n
  induction n with
  | zero =>
    intro i acc ev e he
    simp only [mmapGo] at he
    exact Or.inl he
  | succ n ih =>
    intro i acc ev e he
    rw [mmapGo] at he
    cases hq : query i with
    | none =>
      simp only [hq] at he
      exact Or.inl he
    | some p =>
      obtain ⟨len, off⟩ := p
      simp only [hq] at he
      by_cases hc : len ≠ 0 ∧ mok i = true
      · rw [if_pos hc] at he
        rcases ih (i + 1) (acc ++ [(i, len, off)]) (ev ++ [.mapped i len off]) e he with
          hmem | hmap
        · rcases List.mem_append.mp hmem with h1 | h1
          · exact Or.inl h1
          · exact Or.inr ⟨i, len, off, by simpa using h1⟩
        · exact Or.inr hmap
      · rw [if_neg hc] at he
        exact Or.inl he

/-- If the first mapping failure occurs at index `j` (every query up to `j`
succeeds, every mapping before `j` succeeds, and index `j`'s mapping fails),
`mmapGo` exits through the `MapFailed` check. -/
theorem mmapGo_fail (query : Nat → Option (Nat × Nat)) (mok : Nat → Bool) :
    ∀ (n i : Nat) (acc : List (Nat × Nat × Nat)) (ev : List MmapEvent) (j : Nat),
      i ≤ j → j < i + n →
      (∀ k, i ≤ k → k ≤ j → ∃ p, query k = some p) →
      (∀ k, i ≤ k → k < j → ∃ len off,
        query k = some (len, off) ∧ len ≠ 0 ∧ mok k = true) →
      (∀ len off, query j = some (len, off) → len = 0 ∨ mok j = false) →
      (mmapGo query mok i n acc ev).1 = .error .MapFailed := by
  intro n
  induction n with
  | zero =>
    intro i acc ev j h1 h2 _ _ _
    omega
  | succ n ih =>
    intro i acc ev j hij hjn hq hok hfail
    rw [mmapGo]
    obtain ⟨⟨len, off⟩, hqi⟩ := hq i le_rfl hij
    simp only [hqi]
    rcases eq_or_lt_of_le hij with rfl | hlt
    · have hdis := hfail len off hqi
      have hcond : ¬(len ≠ 0 ∧ mok i = true) := by
        rintro ⟨hne, hmk⟩
        rcases hdis with h0 | h0
        · exact hne h0
        · rw [hmk] at h0; exact Bool.noConfusion h0
      rw [if_neg hcond]
    · obtain ⟨len2, off2, hq2, hne2, hmk2⟩ := hok i le_rfl hlt
      rw [hqi] at hq2
      injection hq2 with hp
      obtain ⟨rfl, rfl⟩ : len = len2 ∧ off = off2 :=
        ⟨congrArg Prod.fst hp, congrArg Prod.snd hp⟩
      rw [if_pos ⟨hne2, hmk2⟩]
      exact ih (i + 1) (acc ++ [(i, len, off)]) (ev ++ [.mapped i len off]) j hlt
        (by omega)
        (fun k hk1 hk2 => hq k (by omega) hk2)
        (fun k hk1 hk2 => hok k (by omega) hk2)
        hfail

/-- Inversion of a successful `exportGo` run: one `(index, fd)` entry per
remaining index, recording the driver-provided descriptor. -/
theorem exportGo_ok_inv (ex : Nat → Option Nat) :
    ∀ (n i : Nat) (acc : List (Nat × Nat)) (fds : List (Nat × Nat)),
      exportGo ex i n acc = .ok fds →
      ∃ tail, fds = acc ++ tail ∧ tail.length = n ∧
        ∀ k < n, ∃ fd, ex (i + k) = some fd ∧ tail[k]? = some (i + k, fd) := by
  intro n
  induction n with
  | zero =>
    intro i acc fds hEq
    simp only [exportGo] at hEq
    injection hEq with hb
    exact ⟨[], by simp [hb.symm], rfl, by omega⟩
  | succ n ih =>
    intro i acc fds hEq
    rw [exportGo] at hEq
    cases hx : ex i with
    | none =>
      simp only [hx] at hEq
      exact Except.noConfusion hEq
    | some fd =>
      simp only [hx] at hEq
      obtain ⟨tail2, hb, hl, hk⟩ := ih (i + 1) (acc ++ [(i, fd)]) fds hEq
      refine ⟨(i, fd) :: tail2, by simp [hb], by simp [hl], ?_⟩
      intro k hkn
      cases k with
      | zero => exact ⟨fd, by simpa using hx, by simp⟩
      | succ m =>
        obtain ⟨f2, hx2, he2⟩ := hk m (by omega)
        have hidx : i + (m + 1) = (i + 1) + m := by omega
        exact ⟨f2, by rw [hidx]; exact hx2, by rw [hidx]; simpa using he2⟩

/-! ### Claim theorems -/

/-- Claim C1: for every in-range buffer index, `queue` on an index whose
recorded state is already `QueuedToDriver` (in particular, the second of two
queues in a row with no intervening dequeue) fails with `InvalidState` and
returns the recorded states unchanged; `queue` succeeds exactly from the
`Free` and `DequeuedByApp` states, transitioning the index to
`QueuedToDriver`. -/
theorem C1_queue_invalid_state (states : List BufferState) (i : Nat)
    (h : i < states.length) :
    (states[i]? = some .QueuedToDriver →
      ringQueue states i = (.error .InvalidState, states)) ∧
    (states[i]? = some .Free ∨ states[i]? = some .DequeuedByApp →
      ringQueue states i = (.ok (), states.set i .QueuedToDriver)) ∧
    (∀ r after, ringQueue states i = (r, after) →
      (r = .ok () ↔ (states[i]? = some .Free ∨ states[i]? = some .DequeuedByApp))) ∧
    (∀ after, ringQueue states i = (.ok (), after) →
      ringQueue after i = (.error .InvalidState, after)) := by
  have hget : states[i]? = some states[i] := List.getElem?_eq_getElem h
  have hset : (states.set i BufferState.QueuedToDriver)[i]? =
      some BufferState.QueuedToDriver :=
    List.getElem?_set_eq_of_lt _ (by simpa using h)
  cases hsi : states[i] with
  | Free =>
    rw [hsi] at hget
    refine ⟨?_, ?_, ?_, ?_⟩
    · intro hc
      rw [hget] at hc
      injection hc with hc
      exact BufferState.noConfusion hc
    · intro _
      unfold ringQueue
      rw [hget]
    · intro r after hr
      unfold ringQueue at hr
      rw [hget] at hr
      injection hr with h1 h2
      subst h1
      simp [hget]
    · intro after hr
      unfold ringQueue at hr
      rw [hget] at hr
      injection hr with h1 h2
      subst h2
      unfold ringQueue
      rw [hset]
  | QueuedToDriver =>
    rw [hsi] at hget
    refine ⟨?_, ?_, ?_, ?_⟩
    · intro _
      unfold ringQueue
      rw [hget]
    · intro hc
      rcases hc with hc | hc <;> rw [hget] at hc <;> injection hc with hc <;>
        exact BufferState.noConfusion hc
    · intro r after hr
      unfold ringQueue at hr
      rw [hget] at hr
      injection hr with h1 h2
      subst h1
      constructor
      · intro hok
        exact Except.noConfusion hok
      · intro hc
        rcases hc with hc | hc <;> rw [hget] at hc <;> injection hc with hc <;>
          exact BufferState.noConfusion hc
    · intro after hr
      unfold ringQueue at hr
      rw [hget] at hr
      injection hr with h1 h2
      exact Except.noConfusion h1
  | DequeuedByApp =>
    rw [hsi] at hget
    refine ⟨?_, ?_, ?_, ?_⟩
    · intro hc
      rw [hget] at hc
      injection hc with hc
      exact BufferState.noConfusion hc
    · intro _
      unfold ringQueue
      rw [hget]
    · intro r after hr
      unfold ringQueue at hr
      rw [hget] at hr
      injection hr with h1 h2
      subst h1
      simp [hget]
    · intro after hr
      unfold ringQueue at hr
      rw [hget] at hr
      injection hr with h1 h2
      subst h2
      unfold ringQueue
      rw [hset]

/-- Witness for C1 on a concrete two-slot ring: queueing slot 1 (already
`QueuedToDriver`) fails with `InvalidState` leaving the states unchanged;
queueing slot 0 (`Free`) succeeds; queueing slot 0 again immediately fails
with `InvalidState`. -/
theorem C1_queue_invalid_state_witness :
    ringQueue [BufferState.Free, BufferState.QueuedToDriver] 1 =
      (.error .InvalidState, [BufferState.Free, BufferState.QueuedToDriver]) ∧
    ringQueue [BufferState.Free, BufferState.QueuedToDriver] 0 =
      (.ok (), [BufferState.QueuedToDriver, BufferState.QueuedToDriver]) ∧
    ringQueue [BufferState.QueuedToDriver, BufferState.QueuedToDriver] 0 =
      (.error .InvalidState, [BufferState.QueuedToDriver, BufferState.QueuedToDriver]) := by
  obtain ⟨h1, -, -, -⟩ :=
    C1_queue_invalid_state [BufferState.Free, BufferState.QueuedToDriver] 1 (by decide)
  obtain ⟨-, h2, -, h4⟩ :=
    C1_queue_invalid_state [BufferState.Free, BufferState.QueuedToDriver] 0 (by decide)
  have hq := h2 (Or.inl rfl)
  exact ⟨h1 rfl, hq, h4 _ hq⟩

/-- Counterexample to claim C2 as stated: with requested count `N = 4`, a
driver grant of `0` is "a count different from N", yet the code fails through
the zero-grant check (`UnsupportedCapability`, "Device gives zero buffers"),
not with `CountMismatch`; moreover a grant equal to the request does not
succeed when `N = 0`. -/
theorem C2_counterexample :
    v4l2_buffers_request 4 (some 0) = .error .UnsupportedCapability ∧
    v4l2_buffers_request 4 (some 0) ≠ .error .CountMismatch ∧
    v4l2_buffers_request 0 (some 0) ≠ .ok 0 := by
  have h4 : v4l2_buffers_request 4 (some 0) = .error .UnsupportedCapability := rfl
  have h0 : v4l2_buffers_request 0 (some 0) = .error .UnsupportedCapability := rfl
  refine ⟨rfl, ?_, ?_⟩
  · intro hc
    rw [h4] at hc
    injection hc with hc
    exact V4l2Error.noConfusion hc
  · intro hc
    rw [h0] at hc
    exact Except.noConfusion hc

/-- Claim C2 (amended): a nonzero grant different from the requested count
fails with `CountMismatch` (an exact grant is required; a partial grant is
never silently accepted — the zero-grant case instead fails with
`UnsupportedCapability`, see C4); a grant of exactly `num ≥ 1` succeeds and
returns `num`; an ioctl failure is fatal as well. -/
theorem C2_count_mismatch (num granted : Nat) :
    (granted ≠ 0 → granted ≠ num →
      v4l2_buffers_request num (some granted) = .error .CountMismatch) ∧
    (num ≠ 0 → v4l2_buffers_request num (some num) = .ok num) ∧
    v4l2_buffers_request num none = .error .RequestFailed := by
  refine ⟨?_, ?_, rfl⟩
  · intro h1 h2
    simp only [v4l2_buffers_request]
    rw [if_neg h1, if_pos h2]
  · intro h
    simp only [v4l2_buffers_request]
    rw [if_neg h, if_neg (fun hc => hc rfl)]

/-- Witness for C2 (amended) at `num = 4`: grant 2 mismatches, grant 4
succeeds. -/
theorem C2_count_mismatch_witness :
    v4l2_buffers_request 4 (some 2) = .error .CountMismatch ∧
    v4l2_buffers_request 4 (some 4) = .ok 4 ∧
    v4l2_buffers_request 4 none = .error .RequestFailed :=
  ⟨(C2_count_mismatch 4 2).1 (by decide) (by decide),
   (C2_count_mismatch 4 4).2.1 (by decide),
   (C2_count_mismatch 4 4).2.2⟩

/-- Claim C4: whatever count was requested, a zero grant from the driver
fails with `UnsupportedCapability`; no pool value is produced (the process
exits through the "Device gives zero buffers" check before any mapping or
export is attempted). -/
theorem C4_zero_grant (num : Nat) :
    v4l2_buffers_request num (some 0) = .error .UnsupportedCapability := rfl

/-- Claim C6: a successful dequeue returns the completed buffer (its index
with the driver-produced bytesused/flags/timestamp/sequence metadata) and
transitions that index from `QueuedToDriver` to `DequeuedByApp`; a wait/read
error surfaces as `DequeueFailed` both in the ring model and in `v4l2_dqbuf`
itself, where the single `VIDIOC_DQBUF` attempt ends the process ("Can not
dequeue buffer") rather than being retried. -/
theorem C6_dequeue_transition (states : List BufferState) (b : V4l2Buffer)
    (h : states[b.index]? = some .QueuedToDriver) :
    ringDequeue states (some b) = .ok (b, states.set b.index .DequeuedByApp) ∧
    ringDequeue states none = .error .DequeueFailed ∧
    v4l2_dqbuf (some b) = .ok b ∧
    v4l2_dqbuf none = .error .DequeueFailed := by
  refine ⟨?_, rfl, rfl, rfl⟩
  simp only [ringDequeue, h]

/-- Witness for C6 on a one-slot ring with a concrete completed buffer. -/
theorem C6_dequeue_transition_witness :
    ringDequeue [BufferState.QueuedToDriver]
        (some ⟨0, 100, 0, 7, 250000, 3⟩) =
      .ok (⟨0, 100, 0, 7, 250000, 3⟩, [BufferState.DequeuedByApp]) ∧
    ringDequeue [BufferState.QueuedToDriver] none = .error .DequeueFailed ∧
    v4l2_dqbuf (some ⟨0, 100, 0, 7, 250000, 3⟩) = .ok ⟨0, 100, 0, 7, 250000, 3⟩ ∧
    v4l2_dqbuf none = .error .DequeueFailed :=
  C6_dequeue_transition [BufferState.QueuedToDriver] ⟨0, 100, 0, 7, 250000, 3⟩ (by decide)

/-- Claim C7: a rejected `VIDIOC_STREAMON` fails with `StreamStartFailed` and
the stream state stays `Stopped`; an accepted one moves the state directly to
`Running`; every call ends in exactly one of those two outcomes (the
two-constructor `StreamState` admits no intermediate state). -/
theorem C7_stream_start (ioctlOk : Bool) :
    streamStart false .Stopped = (.error .StreamStartFailed, .Stopped) ∧
    streamStart true .Stopped = (.ok (), .Running) ∧
    (∀ s, streamStart ioctlOk s = (.ok (), .Running) ∨
      streamStart ioctlOk s = (.error .StreamStartFailed, s)) ∧
    v4l2_streamon false = .error .StreamStartFailed := by
  refine ⟨rfl, rfl, ?_, rfl⟩
  intro s
  cases ioctlOk
  · exact Or.inr rfl
  · exact Or.inl rfl

/-- Counterexample to claim C8 as stated: the name tables are declared with
designated initializers whose enumerators start at 1, so slot 0 of
`v4l2_type_names` and `v4l2_memory_names` is an uninitialized NULL pointer;
`v4l2_type_name(0)` and `v4l2_memory_name(0)` pass the bounds check and
return that NULL (`none`), not a non-NULL string. -/
theorem C8_counterexample :
    v4l2_type_name 0 = none ∧ v4l2_memory_name 0 = none := ⟨rfl, rfl⟩

/-- Claim C8 (amended): the lookup functions never index outside their
tables — any value at or above the table size (10 for fields, 12 for types, 5
for memories) yields the literal `"unknown"` — and an in-range value returns
the stored table entry.  That entry is a non-NULL string for every input of
`v4l2_field_name` (its table is gapless), but `v4l2_type_name` and
`v4l2_memory_name` return NULL exactly at the uninitialized gap index 0. -/
theorem C8_name_tables (a : Nat) :
    (10 ≤ a → v4l2_field_name a = some "unknown") ∧
    (12 ≤ a → v4l2_type_name a = some "unknown") ∧
    (5 ≤ a → v4l2_memory_name a = some "unknown") ∧
    v4l2_field_name a ≠ none ∧
    (v4l2_type_name a = none ↔ a = 0) ∧
    (v4l2_memory_name a = none ↔ a = 0) := by
  have hf : v4l2_field_names.length = 10 := rfl
  have ht : v4l2_type_names.length = 12 := rfl
  have hm : v4l2_memory_names.length = 5 := rfl
  refine ⟨?_, ?_, ?_, ?_, ?_, ?_⟩
  · intro h
    exact v4l2_name_of_le (by rw [hf]; exact h)
  · intro h
    exact v4l2_name_of_le (by rw [ht]; exact h)
  · intro h
    exact v4l2_name_of_le (by rw [hm]; exact h)
  · by_cases h : a < 10
    · interval_cases a <;> decide
    · have hu : v4l2_field_name a = some "unknown" :=
        v4l2_name_of_le (by rw [hf]; omega)
      rw [hu]
      exact fun hc => Option.noConfusion hc
  · by_cases h : a < 12
    · interval_cases a <;> decide
    · have hu : v4l2_type_name a = some "unknown" :=
        v4l2_name_of_le (by rw [ht]; omega)
      rw [hu]
      constructor
      · intro hc
        exact absurd hc (fun hx => Option.noConfusion hx)
      · intro hc
        omega
  · by_cases h : a < 5
    · interval_cases a <;> decide
    · have hu : v4l2_memory_name a = some "unknown" :=
        v4l2_name_of_le (by rw [hm]; omega)
      rw [hu]
      constructor
      · intro hc
        exact absurd hc (fun hx => Option.noConfusion hx)
      · intro hc
        omega

/-- Witness for C8 (amended) at the out-of-range value 20 and the in-range
value 1. -/
theorem C8_name_tables_witness :
    v4l2_field_name 20 = some "unknown" ∧
    v4l2_type_name 20 = some "unknown" ∧
    v4l2_memory_name 20 = some "unknown" ∧
    v4l2_field_name 1 ≠ none ∧
    (v4l2_type_name 1 = none ↔ (1 : Nat) = 0) := by
  obtain ⟨h1, h2, h3, -, -, -⟩ := C8_name_tables 20
  obtain ⟨-, -, -, h4, h5, -⟩ := C8_name_tables 1
  exact ⟨h1 (by decide), h2 (by decide), h3 (by decide), h4, h5⟩

/-- Counterexample to claim C3 as stated: map index 0 successfully, then fail
mapping index 1.  The call fails with `MapFailed`, but the mapping of index 0
established earlier in the same call is never unwound — the resource trace
ends holding `mapped 0 100 0` with no `unmapped` event (the C code calls
`error(EXIT_FAILURE, ...)`, running no `munmap` before the process exits). -/
theorem C3_counterexample :
    (v4l2_buffers_mmap (fun _ => some (100, 0)) (fun k => k == 0) 2).1 =
      .error .MapFailed ∧
    MmapEvent.mapped 0 100 0 ∈
      (v4l2_buffers_mmap (fun _ => some (100, 0)) (fun k => k == 0) 2).2 ∧
    ∀ i, MmapEvent.unmapped i ∉
      (v4l2_buffers_mmap (fun _ => some (100, 0)) (fun k => k == 0) 2).2 := by
  have htr : (v4l2_buffers_mmap (fun _ => some (100, 0)) (fun k => k == 0) 2).2 =
      [.mapped 0 100 0] := rfl
  refine ⟨rfl, ?_, ?_⟩
  · rw [htr]
    exact List.mem_singleton.mpr rfl
  · intro i hmem
    rw [htr] at hmem
    have := List.mem_singleton.mp hmem
    exact MmapEvent.noConfusion this

/-- Claim C3 (amended): if any single mapping fails (the first failure being
at index `j`, every earlier index having been queried and mapped
successfully), the whole `v4l2_buffers_mmap` call fails with `MapFailed` and
no buffer list — partial or otherwise — is produced for the caller; the
mappings established earlier in the call are not unmapped by the function
(no `unmapped` event ever occurs): the process exit is what reclaims them. -/
theorem C3_map_failure (query : Nat → Option (Nat × Nat)) (mok : Nat → Bool)
    (num j : Nat) (hj : j < num)
    (hq : ∀ k, k ≤ j → ∃ p, query k = some p)
    (hok : ∀ k, k < j → ∃ len off, query k = some (len, off) ∧ len ≠ 0 ∧ mok k = true)
    (hfail : ∀ len off, query j = some (len, off) → len = 0 ∨ mok j = false) :
    (v4l2_buffers_mmap query mok num).1 = .error .MapFailed ∧
    ∀ i, MmapEvent.unmapped i ∉ (v4l2_buffers_mmap query mok num).2 := by
  constructor
  · exact mmapGo_fail query mok num 0 [] [] j (Nat.zero_le j) (by omega)
      (fun k _ hk2 => hq k hk2) (fun k _ hk2 => hok k hk2) hfail
  · intro i hmem
    rcases mmapGo_events_mapped query mok num 0 [] [] _ hmem with hin | ⟨a, b, c, hab⟩
    · exact absurd hin (List.not_mem_nil _)
    · exact MmapEvent.noConfusion hab

/-- Witness for C3 (amended): three requested mappings, the second one
failing. -/
theorem C3_map_failure_witness :
    (v4l2_buffers_mmap (fun _ => some (64, 0)) (fun k => k == 0) 3).1 =
      .error .MapFailed ∧
    ∀ i, MmapEvent.unmapped i ∉
      (v4l2_buffers_mmap (fun _ => some (64, 0)) (fun k => k == 0) 3).2 :=
  C3_map_failure (fun _ => some (64, 0)) (fun k => k == 0) 3 1 (by decide)
    (fun _ _ => ⟨(64, 0), rfl⟩)
    (fun k hk => by interval_cases k; exact ⟨64, 0, rfl, by decide, rfl⟩)
    (fun _ _ _ => Or.inr rfl)

/-- Claim C5: requesting `N ≥ 1` buffers from a driver that grants exactly
`N` succeeds returning `N`; a successful `v4l2_buffers_mmap` yields exactly
`N` descriptors, the `j`-th being index `j` with the length and offset
queried for that index and a nonzero length (a zero-length mapping cannot
succeed, so a successful pool has nonzero lengths throughout); a successful
`v4l2_buffers_export` yields exactly `N` entries, the `j`-th pairing index
`j` with the file descriptor exported for that index. -/
theorem C5_pool_shape (N : Nat) (query : Nat → Option (Nat × Nat))
    (mok : Nat → Bool) (ex : Nat → Option Nat) (hN : 1 ≤ N) :
    v4l2_buffers_request N (some N) = .ok N ∧
    (∀ bufs ev, v4l2_buffers_mmap query mok N = (.ok bufs, ev) →
      bufs.length = N ∧ ∀ j, j < N → ∃ len off, query j = some (len, off) ∧
        len ≠ 0 ∧ bufs[j]? = some (j, len, off)) ∧
    (∀ fds, v4l2_buffers_export ex N = .ok fds →
      fds.length = N ∧ ∀ j, j < N → ∃ fd, ex j = some fd ∧
        fds[j]? = some (j, fd)) := by
  refine ⟨?_, ?_, ?_⟩
  · simp only [v4l2_buffers_request]
    rw [if_neg (by omega), if_neg (fun hc => hc rfl)]
  · intro bufs ev hEq
    obtain ⟨tail, hb, hl, hk⟩ := mmapGo_ok_inv query mok N 0 [] [] bufs ev hEq
    constructor
    · rw [hb]
      simpa using hl
    · intro j hj
      obtain ⟨len, off, h1, h2, _, h4⟩ := hk j hj
      exact ⟨len, off, by simpa using h1, h2, by rw [hb]; simpa using h4⟩
  · intro fds hEq
    obtain ⟨tail, hb, hl, hk⟩ := exportGo_ok_inv ex N 0 [] fds hEq
    constructor
    · rw [hb]
      simpa using hl
    · intro j hj
      obtain ⟨fd, h1, h2⟩ := hk j hj
      exact ⟨fd, by simpa using h1, by rw [hb]; simpa using h2⟩

/-- Witness for C5 with `N = 2` and concrete driver replies (index `j` gets
length `j + 1` at offset `4096 j`, exported fd `30 + j`). -/
theorem C5_pool_shape_witness :
    v4l2_buffers_request 2 (some 2) = .ok 2 ∧
    ([(0, 1, 0), (1, 2, 4096)] : List (Nat × Nat × Nat)).length = 2 ∧
    ([(0, 30), (1, 31)] : List (Nat × Nat)).length = 2 ∧
    (∃ len off, (fun j => some (j + 1, 4096 * j)) 1 = some (len, off) ∧
      len ≠ 0 ∧ ([(0, 1, 0), (1, 2, 4096)] : List (Nat × Nat × Nat))[1]? =
        some (1, len, off)) := by
  obtain ⟨h1, h2, h3⟩ := C5_pool_shape 2 (fun j => some (j + 1, 4096 * j))
    (fun _ => true) (fun j => some (30 + j)) (by decide)
  have hm := h2 [(0, 1, 0), (1, 2, 4096)] [.mapped 0 1 0, .mapped 1 2 4096] rfl
  have he := h3 [(0, 30), (1, 31)] rfl
  exact ⟨h1, hm.1, he.1, hm.2 1 (by decide)⟩

/-- Claim C9: `v4l2_framerate_get` is the module's one operation whose I/O
failure is non-fatal — a failing `VIDIOC_G_PARM` returns `NAN` (modelled
`none`) instead of exiting, and success returns the capture time-per-frame's
denominator divided by its numerator whatever buffer type was passed (the
`capture`/`output` union members alias the same storage) — while every other
operation of the module turns the failure of its external call into a fatal
process exit: `v4l2_open` (open and `VIDIOC_QUERYCAP`), `v4l2_configure`
(`VIDIOC_S_FMT`), `v4l2_framerate_configure` (`VIDIOC_G_PARM` and
`VIDIOC_S_PARM`), `v4l2_buffers_request` (`VIDIOC_REQBUFS`),
`v4l2_buffers_mmap` (`VIDIOC_QUERYBUF` and `mmap`), `v4l2_buffers_export`
(`VIDIOC_EXPBUF`), `v4l2_qbuf` (`VIDIOC_QBUF`), `v4l2_dqbuf`
(`VIDIOC_DQBUF`), `v4l2_streamon` (`VIDIOC_STREAMON`). -/
theorem C9_framerate_get_nonfatal :
    (∀ t, v4l2_framerate_get t none = none) ∧
    (∀ t p, v4l2_framerate_get t (some p) =
      some ((p.tpfDenominator : ℚ) / (p.tpfNumerator : ℚ))) ∧
    (∀ t1 t2 r, v4l2_framerate_get t1 r = v4l2_framerate_get t2 r) ∧
    (∀ a b q pos neg, v4l2_open false a b q pos neg = .error .OpenFailed) ∧
    (∀ pos neg, v4l2_open true true true none pos neg = .error .QueryCapFailed) ∧
    (∀ pf w h, v4l2_configure pf w h none = .error .SetFormatFailed) ∧
    (∀ t fr sp, v4l2_framerate_configure t fr none sp = .error .GetParmFailed) ∧
    (∀ fr p, v4l2_framerate_configure 4 fr (some p) (fun _ => none) =
      .error .SetParmFailed) ∧
    (∀ n, v4l2_buffers_request n none = .error .RequestFailed) ∧
    (∀ mok n, (v4l2_buffers_mmap (fun _ => none) mok (n + 1)).1 =
      .error .QueryBufFailed) ∧
    (∀ n, (v4l2_buffers_mmap (fun _ => some (1, 0)) (fun _ => false) (n + 1)).1 =
      .error .MapFailed) ∧
    (∀ n, v4l2_buffers_export (fun _ => none) (n + 1) = .error .ExportFailed) ∧
    (∀ b, v4l2_qbuf false b = .error .DriverRejected) ∧
    v4l2_dqbuf none = .error .DequeueFailed ∧
    v4l2_streamon false = .error .StreamStartFailed := by
  refine ⟨fun t => rfl, fun t p => rfl, ?_, fun a b q pos neg => rfl,
    fun pos neg => rfl, fun pf w h => rfl, fun t fr sp => rfl, fun fr p => rfl,
    fun n => rfl, fun mok n => rfl, fun n => rfl, fun n => rfl, fun b => rfl,
    rfl, rfl⟩
  intro t1 t2 r
  cases r <;> rfl

/-- Claim C10: `v4l2_configure` succeeds exactly when the driver-confirmed
format matches the request — it returns (rather than exiting) iff the
written-back width and height equal the requested ones and the written-back
pixelformat equals the requested one — so on success the negotiated format
equals the request in all three checked fields; a failed `VIDIOC_S_FMT` is
fatal. -/
theorem C10_configure_exact (pf w h : Nat) (reply : Option PixFormat) :
    (∀ r, v4l2_configure pf w h reply = .ok r →
      reply = some r ∧ r.width = w ∧ r.height = h ∧ r.pixelformat = pf) ∧
    (∀ r, reply = some r → r.width = w → r.height = h → r.pixelformat = pf →
      v4l2_configure pf w h reply = .ok r) ∧
    v4l2_configure pf w h none = .error .SetFormatFailed := by
  refine ⟨?_, ?_, rfl⟩
  · intro r hr
    cases reply with
    | none =>
      simp only [v4l2_configure] at hr
      exact Except.noConfusion hr
    | some r0 =>
      simp only [v4l2_configure] at hr
      by_cases h1 : r0.width ≠ w ∨ r0.height ≠ h
      · rw [if_pos h1] at hr
        exact Except.noConfusion hr
      · rw [if_neg h1] at hr
        by_cases h2 : r0.pixelformat ≠ pf
        · rw [if_pos h2] at hr
          exact Except.noConfusion hr
        · rw [if_neg h2] at hr
          injection hr with hr
          subst hr
          push_neg at h1
          exact ⟨rfl, h1.1, h1.2, not_not.mp h2⟩
  · intro r hr hw hh hpf
    subst hr
    simp only [v4l2_configure]
    rw [if_neg (by push_neg; exact ⟨hw, hh⟩), if_neg (not_not.mpr hpf)]

/-- Witness for C10 with a 640x480 request the driver confirms exactly, and
a failing `VIDIOC_S_FMT`. -/
theorem C10_configure_exact_witness :
    v4l2_configure 875967048 640 480 (some ⟨640, 480, 875967048, 0, 614400⟩) =
      .ok ⟨640, 480, 875967048, 0, 614400⟩ ∧
    v4l2_configure 875967048 640 480 none = .error .SetFormatFailed := by
  obtain ⟨-, h2, -⟩ :=
    C10_configure_exact 875967048 640 480 (some ⟨640, 480, 875967048, 0, 614400⟩)
  exact ⟨h2 _ rfl rfl rfl rfl, (C10_configure_exact 875967048 640 480 none).2.2⟩
